import Mathlib

/-!
Shallow embedding of `src/main.py`, a Flask blog application: data model
(User, BlogPost, Comment), session principal, the store helper functions
(`get_users`, `get_user_email`, `get_user`, `db_add`), the `admin_only`
guard, and the request handlers (`register`, `login`, `logout`,
`show_post`, `add_new_post`, `edit_post`, `delete_post`).

External library behaviour is embedded by its documented semantics:
- flask_login: `current_user` is either an `AnonymousUserMixin` (which has
  no `id` attribute, and whose `is_anonymous` attribute is a property
  returning a Bool, so calling it raises TypeError) or a loaded `User`
  (a `UserMixin`, always active, `is_anonymous` property returns false);
  `login_user` succeeds iff the user is active; `login_required` with no
  `login_view` configured aborts with HTTP 401 for an unauthenticated
  principal.
- flask / flask_sqlalchemy: `abort(c)` and `db.get_or_404` raise an
  HTTPException carrying status `c`; any other uncaught Python exception
  becomes an HTTP 500 response.
- werkzeug password hashing is embedded by its contract: `hash` produces a
  tagged digest and `check_password_hash` verifies a candidate against it.
-/

set_option autoImplicit false

namespace Blog

/-- Row of the `users` table (main.py class `User`). -/
structure User where
  id : Nat
  name : String
  email : String
  password : String
deriving DecidableEq, Repr

/-- Row of the `blog_posts` table (main.py class `BlogPost`); the
relationship `author` is its foreign key `user_id`. -/
structure BlogPost where
  id : Nat
  title : String
  subtitle : String
  date : String
  body : String
  img_url : String
  user_id : Nat
deriving DecidableEq, Repr

/-- Row of the `comments` table (main.py class `Comment`). -/
structure Comment where
  id : Nat
  text : String
  user_id : Nat
  post_id : Nat
deriving DecidableEq, Repr

/-- The relational store: the three tables. -/
structure Store where
  users : List User
  posts : List BlogPost
  comments : List Comment
deriving DecidableEq, Repr

/-- flask_login `current_user`: either the anonymous sentinel or a loaded
user. -/
inductive Principal where
  | anonymous
  | user (u : User)
deriving DecidableEq, Repr

/-- Exceptions that escape handler code: `http c` is a flask HTTPException
from `abort c` or `get_or_404`; the others are uncaught Python exceptions
(which flask turns into a 500 response) — AttributeError, TypeError, and
the sqlalchemy IntegrityError a commit raises when a store-level constraint
(a unique column, a NOT NULL column) is violated. -/
inductive Exc where
  | http (code : Nat)
  | attributeError
  | typeError
  | integrityError
deriving DecidableEq, Repr

/-- A successful handler response body. -/
inductive Response where
  | render (template : String)
  | redirect (endpoint : String)
deriving DecidableEq, Repr

/-- What a handler produces when no exception escapes: the response, the
flashed messages of this request as (message, category) pairs, the session
content after the request (the logged-in user id, none when logged out),
and the store after the request. -/
structure PageOk where
  response : Response
  flashes : List (String × String)
  sessionUser : Option Nat
  store : Store
deriving DecidableEq, Repr

/-- The session content an unmodified request leaves behind: the id of the
logged-in principal, none for anonymous. -/
def sessionOf : Principal → Option Nat
  | .anonymous => none
  | .user u => some u.id

/-- The HTTP-level result after flask converts exceptions to responses. -/
structure HttpResult where
  status : Nat
  response : Option Response
  flashes : List (String × String)
  sessionUser : Option Nat
  store : Store
deriving DecidableEq, Repr

/-- Status code of a successful response: renders are 200, redirects 302. -/
def statusOf : Response → Nat
  | .render _ => 200
  | .redirect _ => 302

/-- flask request dispatch: a normal return becomes a 200/302 response; an
HTTPException becomes a response with its status code; any other uncaught
exception becomes a 500 response. Exceptions leave the store and session as
they were when raised; in every handler below no mutation precedes a raise,
so the pre-request store and session are passed in. -/
def serve (s : Store) (p : Principal) : Except Exc PageOk → HttpResult
  | .ok r => ⟨statusOf r.response, some r.response, r.flashes, r.sessionUser, r.store⟩
  | .error (.http c) => ⟨c, none, [], sessionOf p, s⟩
  | .error _ => ⟨500, none, [], sessionOf p, s⟩

/-- SELECT users WHERE id = i (first row or none). -/
def findUserById (s : Store) (i : Nat) : Option User :=
  s.users.find? (fun u => u.id == i)

/-- SELECT blog_posts WHERE id = i (first row or none). -/
def findPostById (s : Store) (i : Nat) : Option BlogPost :=
  s.posts.find? (fun q => q.id == i)

/-- Insert a user into a list kept sorted by id (helper embedding ORDER BY
User.id). -/
def insertById (u : User) : List User → List User
  | [] => [u]
  | v :: vs => if u.id ≤ v.id then u :: v :: vs else v :: insertById u vs

/-- Sort a user list by id (embedding ORDER BY User.id). -/
def sortById : List User → List User
  | [] => []
  | u :: us => insertById u (sortById us)

/-- main.py `get_users`: SELECT users ORDER BY id. -/
def get_users (s : Store) : List User :=
  sortById s.users

/-- main.py `get_user_email`: SELECT users WHERE email = e, `.scalar()`
gives the first row or none. -/
def get_user_email (s : Store) (email : String) : Option User :=
  s.users.find? (fun u => u.email == email)

/-- main.py `get_user`: `db.get_or_404(User, id)` returns the row or raises
an HTTP 404. -/
def get_user (s : Store) (i : Nat) : Except Exc User :=
  match findUserById s i with
  | some u => .ok u
  | none => .error (.http 404)

/-- main.py `user_loader`: the flask_login session loader; resolves the raw
session id through `get_user`. -/
def user_loader (s : Store) (user_id : Nat) : Except Exc User :=
  get_user s user_id

/-- Autoincrement primary key for the users table: one more than the
largest existing id. -/
def nextUserId (s : Store) : Nat :=
  (s.users.map User.id).foldr max 0 + 1

/-- Autoincrement primary key for the blog_posts table. -/
def nextPostId (s : Store) : Nat :=
  (s.posts.map BlogPost.id).foldr max 0 + 1

/-- Autoincrement primary key for the comments table. -/
def nextCommentId (s : Store) : Nat :=
  (s.comments.map Comment.id).foldr max 0 + 1

/-- main.py `hash`: werkzeug `generate_password_hash` with pbkdf2:sha256,
embedded by its contract as a tagged digest of the secret. -/
def hash (s : String) : String :=
  "pbkdf2:sha256:" ++ s

/-- werkzeug `check_password_hash`: a candidate verifies against a digest
iff hashing the candidate reproduces the digest. -/
def check_password_hash (digest candidate : String) : Bool :=
  digest == hash candidate

/-- flask_login `UserMixin.is_active`: always true. -/
def is_active (_u : User) : Bool :=
  true

/-- flask_login `login_user`: establishes the session and returns true iff
the user is active (no force / fresh options are passed in main.py). -/
def login_user (u : User) : Bool :=
  is_active u

/-- Python attribute access `current_user.id`: a loaded user has its id
column; flask_login AnonymousUserMixin has no `id` attribute, so the access
raises AttributeError. -/
def principal_id : Principal → Except Exc Nat
  | .anonymous => .error .attributeError
  | .user u => .ok u.id

/-- flask_login property `is_anonymous`: true on the anonymous sentinel,
false on a loaded user. It is a property, so reading it yields this Bool. -/
def is_anonymous_prop : Principal → Bool
  | .anonymous => true
  | .user _ => false

/-- Python call syntax applied to a Bool value, as in
`current_user.is_anonymous()`: a Bool is not callable, so the call raises
TypeError whatever the Bool is. -/
def callBool (_b : Bool) : Except Exc Bool :=
  .error .typeError

/-- main.py `admin_only` decorator: evaluates `current_user.id == 1`; runs
the wrapped handler on success, aborts 403 otherwise (and the attribute
access itself raises for the anonymous principal). -/
def admin_only {α : Type} (p : Principal) (handler : Unit → Except Exc α) :
    Except Exc α :=
  match principal_id p with
  | .error e => .error e
  | .ok i => if i == 1 then handler () else .error (.http 403)

/-- flask_login `login_required` decorator: an unauthenticated principal
triggers `LoginManager.unauthorized`, which with no `login_view` configured
(main.py never sets one) aborts with HTTP 401. -/
def login_required {α : Type} (p : Principal) (handler : Unit → Except Exc α) :
    Except Exc α :=
  match p with
  | .anonymous => .error (.http 401)
  | .user _ => handler ()

/-- Modelled from the spec: forms.py is not under src/ and the spec treats
form field validation as out-of-scope glue, so a form is its submitted
fields plus a flag for `validate_on_submit` (true exactly on a valid POST
submission). Registration form: name, email, password. -/
structure RegisterForm where
  name : String
  email : String
  password : String
  valid : Bool
deriving DecidableEq, Repr

/-- Modelled from the spec: login form, email and password fields plus the
`validate_on_submit` flag. -/
structure LoginForm where
  email : String
  password : String
  valid : Bool
deriving DecidableEq, Repr

/-- Modelled from the spec: comment form, a body field plus the
`validate_on_submit` flag. -/
structure CommentForm where
  body : String
  valid : Bool
deriving DecidableEq, Repr

/-- Modelled from the spec: post creation/edit form with title, subtitle,
body and image URL fields (no date field) plus the `validate_on_submit`
flag. -/
structure CreatePostForm where
  title : String
  subtitle : String
  body : String
  img_url : String
  valid : Bool
deriving DecidableEq, Repr

/-- main.py `db_add` applied to a fresh `User(...)`: the session add plus
commit assigns the autoincrement id and appends the row. Returns the new
store and the committed row. -/
def db_add_user (s : Store) (name email password : String) : Store × User :=
  let u : User := ⟨nextUserId s, name, email, password⟩
  (⟨s.users ++ [u], s.posts, s.comments⟩, u)

/-- main.py `db_add` applied to a fresh `Comment(...)`. -/
def db_add_comment (s : Store) (text : String) (user_id post_id : Nat) :
    Store × Comment :=
  let c : Comment := ⟨nextCommentId s, text, user_id, post_id⟩
  (⟨s.users, s.posts, s.comments ++ [c]⟩, c)

/-- `db.session.add` plus `db.session.commit` applied to a fresh
`BlogPost(...)` in `add_new_post`. `BlogPost.title` is declared
`unique=True`, so a commit whose title duplicates an existing row raises
IntegrityError and inserts nothing; otherwise the row is appended with the
autoincrement id. -/
def db_add_post (s : Store) (title subtitle date body img_url : String)
    (user_id : Nat) : Except Exc (Store × BlogPost) :=
  if s.posts.any (fun r => r.title == title) then
    .error .integrityError
  else
    let q : BlogPost := ⟨nextPostId s, title, subtitle, date, body, img_url, user_id⟩
    .ok (⟨s.users, s.posts ++ [q], s.comments⟩, q)

/-- Commit of the in-place field assignments in `edit_post`: the unique
title constraint also guards the update, so a new title equal to another
row's title raises IntegrityError and changes nothing; otherwise the row
with the same id is replaced. -/
def updatePost (s : Store) (q : BlogPost) : Except Exc Store :=
  if s.posts.any (fun r => r.id != q.id && r.title == q.title) then
    .error .integrityError
  else
    .ok ⟨s.users, s.posts.map (fun r => if r.id == q.id then q else r), s.comments⟩

/-- The post table with the row of id `i` removed. -/
def removePost (s : Store) (i : Nat) : Store :=
  ⟨s.users, s.posts.filter (fun r => r.id != i), s.comments⟩

/-- `db.session.delete` plus commit in `delete_post`. The `comments`
relationship carries no delete cascade and `Comment.post_id` is a
`Mapped[int]` NOT NULL column, so at flush the ORM nullifies the
`post_id` of every comment of the deleted post, which violates NOT NULL:
when any comment references the post the commit raises IntegrityError and
deletes nothing; otherwise the row is removed. -/
def deletePostRow (s : Store) (i : Nat) : Except Exc Store :=
  if s.comments.any (fun c => c.post_id == i) then
    .error .integrityError
  else
    .ok (removePost s i)

/-- main.py `register`, generalised over the outcome function of the
flask_login `login_user` call (the library call whose success is not
decided by this repository); `register` below instantiates it with the
real `login_user`. On valid submission: build the candidate user, reject
with flash plus redirect-to-login if its email occurs among the emails of
`get_users()` (the existing rows; the candidate is not yet in the store),
else `db_add` the user and, if `login_user` succeeds, redirect to the post
list; otherwise fall through to rendering the form. -/
def registerGen (login_ok : User → Bool) (s : Store) (p : Principal)
    (form : RegisterForm) : Except Exc PageOk :=
  if form.valid then
    let candidateEmail := form.email
    if ((get_users s).map (fun u => u.email)).contains candidateEmail then
      .ok ⟨.redirect "login", [("The email is already registered.", "email")],
        sessionOf p, s⟩
    else
      let su := db_add_user s form.name form.email (hash form.password)
      if login_ok su.2 then
        .ok ⟨.redirect "get_all_posts", [], some su.2.id, su.1⟩
      else
        .ok ⟨.render "register.jinja", [], sessionOf p, su.1⟩
  else
    .ok ⟨.render "register.jinja", [], sessionOf p, s⟩

/-- main.py `register` with the real flask_login `login_user`. -/
def register (s : Store) (p : Principal) (form : RegisterForm) :
    Except Exc PageOk :=
  registerGen login_user s p form

/-- main.py `login`: on valid submission look the user up by email; if
found, verify the password hash, establish the session and redirect on
success, flash the invalid-password message on failure; if not found,
flash the email-does-not-exist message. -/
def login (s : Store) (p : Principal) (form : LoginForm) : Except Exc PageOk :=
  if form.valid then
    match get_user_email s form.email with
    | some u =>
      if check_password_hash u.password form.password then
        if login_user u then
          .ok ⟨.redirect "get_all_posts", [], some u.id, s⟩
        else
          .ok ⟨.render "login.jinja", [], sessionOf p, s⟩
      else
        .ok ⟨.render "login.jinja", [("Password invalid. Try again.", "warning")],
          sessionOf p, s⟩
    | none =>
      .ok ⟨.render "login.jinja", [("Email does not exist. Try again.", "warning")],
        sessionOf p, s⟩
  else
    .ok ⟨.render "login.jinja", [], sessionOf p, s⟩

/-- main.py `logout`: guarded by `login_required`; clears the session and
redirects to the post list. -/
def logout (s : Store) (p : Principal) : Except Exc PageOk :=
  login_required p (fun _ =>
    .ok ⟨.redirect "get_all_posts", [], none, s⟩)

/-- main.py `show_post`: `get_or_404` the post; on a valid comment
submission evaluate `current_user.is_anonymous()` (a call on a Bool
property), flash and redirect to login for an anonymous submitter, else
`db_add` the comment with the submitter and post ids; finally render the
post view. -/
def show_post (s : Store) (p : Principal) (post_id : Nat) (form : CommentForm) :
    Except Exc PageOk :=
  match findPostById s post_id with
  | none => .error (.http 404)
  | some _requested_post =>
    if form.valid then
      match callBool (is_anonymous_prop p) with
      | .error e => .error e
      | .ok anon =>
        if anon then
          .ok ⟨.redirect "login", [("You must be logged in to comment.", "email")],
            sessionOf p, s⟩
        else
          match principal_id p with
          | .error e => .error e
          | .ok uid =>
            let sc := db_add_comment s form.body uid post_id
            .ok ⟨.render "post.jinja", [], sessionOf p, sc.1⟩
    else
      .ok ⟨.render "post.jinja", [], sessionOf p, s⟩

/-- main.py `add_new_post`: guarded by `admin_only`; on valid submission
creates the post with the form fields, the current principal as author and
the server-side date stamp `today`, then redirects to the post list; the
commit is not wrapped in a try, so an IntegrityError from a duplicate
title propagates. -/
def add_new_post (today : String) (s : Store) (p : Principal)
    (form : CreatePostForm) : Except Exc PageOk :=
  admin_only p (fun _ =>
    if form.valid then
      match principal_id p with
      | .error e => .error e
      | .ok uid =>
        match db_add_post s form.title form.subtitle today form.body
          form.img_url uid with
        | .error e => .error e
        | .ok sq => .ok ⟨.redirect "get_all_posts", [], sessionOf p, sq.1⟩
    else
      .ok ⟨.render "make-post.html", [], sessionOf p, s⟩)

/-- main.py `edit_post`: guarded by `admin_only`; `get_or_404` the post; on
valid submission overwrite title, subtitle, image URL and body from the
form, reassign the author to the current principal (the date is kept), and
redirect to the post view. -/
def edit_post (s : Store) (p : Principal) (post_id : Nat)
    (form : CreatePostForm) : Except Exc PageOk :=
  admin_only p (fun _ =>
    match findPostById s post_id with
    | none => .error (.http 404)
    | some q =>
      if form.valid then
        match principal_id p with
        | .error e => .error e
        | .ok uid =>
          let q2 : BlogPost :=
            ⟨q.id, form.title, form.subtitle, q.date, form.body, form.img_url, uid⟩
          match updatePost s q2 with
          | .error e => .error e
          | .ok s2 => .ok ⟨.redirect "show_post", [], sessionOf p, s2⟩
      else
        .ok ⟨.render "make-post.html", [], sessionOf p, s⟩)

/-- main.py `delete_post`: guarded by `admin_only`; `get_or_404` the post,
delete it, redirect to the post list; the commit is not wrapped in a try,
so the IntegrityError raised when comments reference the post
propagates. -/
def delete_post (s : Store) (p : Principal) (post_id : Nat) :
    Except Exc PageOk :=
  admin_only p (fun _ =>
    match findPostById s post_id with
    | none => .error (.http 404)
    | some q =>
      match deletePostRow s q.id with
      | .error e => .error e
      | .ok s2 => .ok ⟨.redirect "get_all_posts", [], sessionOf p, s2⟩)

end Blog


namespace Blog

/-- Sample user, first registered (id 1, the administrator). -/
def alice : User := ⟨1, "Alice", "a@x", hash "pw1"⟩

/-- Sample user, second registered (id 2, not the administrator). -/
def bob : User := ⟨2, "Bob", "b@x", hash "pw2"⟩

/-- Sample post authored by user 1. -/
def post1 : BlogPost := ⟨1, "Hello", "sub", "May 01, 2024", "body", "img", 1⟩

/-- Sample store with two users and one post. -/
def store1 : Store := ⟨[alice, bob], [post1], []⟩

/-- The empty store. -/
def emptyStore : Store := ⟨[], [], []⟩

/-- Membership in an ordered insertion. -/
theorem mem_insertById (u v : User) (l : List User) :
    v ∈ insertById u l ↔ v = u ∨ v ∈ l := by
  induction l with
  | nil => simp [insertById]
  | cons w ws ih =>
    simp only [insertById]
    split
    · simp
    · simp only [List.mem_cons, ih]
      tauto

/-- Sorting by id preserves membership. -/
theorem mem_sortById (v : User) (l : List User) : v ∈ sortById l ↔ v ∈ l := by
  induction l with
  | nil => simp [sortById]
  | cons u us ih => simp [sortById, mem_insertById, ih]

/-- The email list the register handler checks holds exactly the emails of
the existing user rows. -/
theorem get_users_email_contains (s : Store) (e : String) :
    (((get_users s).map fun u => u.email).contains e = true) ↔
      ∃ u ∈ s.users, u.email = e := by
  simp [get_users, List.elem_iff, List.mem_map, mem_sortById]

/-- A fresh email is absent from the checked email list. -/
theorem not_contains_of_fresh (s : Store) (e : String)
    (h : ∀ u ∈ s.users, u.email ≠ e) :
    (((get_users s).map fun u => u.email).contains e) = false := by
  cases hco : ((get_users s).map fun u => u.email).contains e with
  | true =>
    obtain ⟨u, hu, he⟩ := (get_users_email_contains s e).mp hco
    exact absurd he (h u hu)
  | false => rfl

/-- Every element of a Nat list is bounded by its max fold. -/
theorem le_foldr_max (x : Nat) (l : List Nat) (h : x ∈ l) :
    x ≤ l.foldr max 0 := by
  induction l with
  | nil => cases h
  | cons y ys ih =>
    rcases List.mem_cons.mp h with rfl | h2
    · exact le_max_left x (ys.foldr max 0)
    · exact le_trans (ih h2) (le_max_right y (ys.foldr max 0))

/-- Existing post ids are strictly below the next autoincrement id. -/
theorem post_id_lt_nextPostId (s : Store) (q : BlogPost) (h : q ∈ s.posts) :
    q.id < nextPostId s := by
  have hle : q.id ≤ (s.posts.map BlogPost.id).foldr max 0 :=
    le_foldr_max q.id _ (List.mem_map_of_mem BlogPost.id h)
  have : nextPostId s = (s.posts.map BlogPost.id).foldr max 0 + 1 := rfl
  omega

/-- find? over an append whose left part has no hit. -/
theorem find_skip_left {α : Type} (p : α → Bool) (l1 l2 : List α)
    (h : l1.find? p = none) : (l1 ++ l2).find? p = l2.find? p := by
  induction l1 with
  | nil => rfl
  | cons x xs ih =>
    cases hx : p x with
    | true => rw [List.find?_cons_of_pos _ hx] at h; cases h
    | false =>
      have hx2 : ¬p x = true := by simp [hx]
      rw [List.find?_cons_of_neg _ hx2] at h
      rw [List.cons_append, List.find?_cons_of_neg _ hx2]
      exact ih h

end Blog

namespace Blog

/-- C1: a request to the create-post, edit-post or delete-post handler by
an authenticated principal other than the user with id 1 is answered with
403 Forbidden and leaves the store unchanged. The claim additionally says
the Anonymous principal also gets 403; instead, for Anonymous the guard
evaluates `current_user.id` on the anonymous sentinel, which has no id
attribute, so the request is answered with 500 (AttributeError), not 403 —
the store is still unchanged. -/
theorem admin_gate_non_admin_403_but_anonymous_500
    (today : String) (s : Store) (form : CreatePostForm) (pid : Nat)
    (u : User) (h : u.id ≠ 1) :
    serve s (.user u) (add_new_post today s (.user u) form) =
      ⟨403, none, [], some u.id, s⟩ ∧
    serve s (.user u) (edit_post s (.user u) pid form) =
      ⟨403, none, [], some u.id, s⟩ ∧
    serve s (.user u) (delete_post s (.user u) pid) =
      ⟨403, none, [], some u.id, s⟩ ∧
    serve s .anonymous (add_new_post today s .anonymous form) =
      ⟨500, none, [], none, s⟩ ∧
    serve s .anonymous (edit_post s .anonymous pid form) =
      ⟨500, none, [], none, s⟩ ∧
    serve s .anonymous (delete_post s .anonymous pid) =
      ⟨500, none, [], none, s⟩ := by
  have hb : (u.id == 1) = false := by simp [h]
  simp [serve, add_new_post, edit_post, delete_post, admin_only, principal_id,
    hb, sessionOf]

/-- C1 witness: Bob (id 2) requesting the create-post handler receives 403
with the store unchanged. -/
theorem admin_gate_non_admin_403_witness :
    bob.id ≠ 1 ∧
    serve store1 (.user bob)
      (add_new_post "d" store1 (.user bob) ⟨"t", "s", "b", "i", true⟩) =
      ⟨403, none, [], some bob.id, store1⟩ :=
  ⟨by decide,
    (admin_gate_non_admin_403_but_anonymous_500 "d" store1
      ⟨"t", "s", "b", "i", true⟩ 1 bob (by decide)).1⟩

/-- C2: if no user row carries the raw session id, the session loader does
not revert to Anonymous: `get_user` is `db.get_or_404`, so the loader
raises an HTTP 404 into request handling, contradicting the claim. -/
theorem user_loader_aborts_404_on_unknown_id (s : Store) (i : Nat)
    (h : findUserById s i = none) :
    user_loader s i = .error (.http 404) := by
  simp [user_loader, get_user, h]

/-- C2 witness: loading session id 1 against the empty store raises the
HTTP 404. -/
theorem user_loader_aborts_404_witness :
    findUserById emptyStore 1 = none ∧
    user_loader emptyStore 1 = .error (.http 404) :=
  ⟨rfl, user_loader_aborts_404_on_unknown_id emptyStore 1 rfl⟩

/-- C3: a valid comment submission by the Anonymous principal creates no
Comment row (the store is unchanged), but the response is not a flash plus
redirect to login: the handler calls the Bool property
`current_user.is_anonymous` as a function, raising TypeError, so the
response is 500. -/
theorem anonymous_comment_raises_typeError (s : Store) (pid : Nat)
    (form : CommentForm) (q : BlogPost)
    (hq : findPostById s pid = some q) (hv : form.valid = true) :
    show_post s .anonymous pid form = .error .typeError ∧
    serve s .anonymous (show_post s .anonymous pid form) =
      ⟨500, none, [], none, s⟩ := by
  simp [show_post, hq, hv, callBool, serve, sessionOf]

/-- C3 witness: an anonymous valid comment POST on post 1 of the sample
store yields the TypeError and a 500 with the store unchanged. -/
theorem anonymous_comment_raises_typeError_witness :
    findPostById store1 1 = some post1 ∧
    ((⟨"hi", true⟩ : CommentForm).valid = true) ∧
    serve store1 .anonymous (show_post store1 .anonymous 1 ⟨"hi", true⟩) =
      ⟨500, none, [], none, store1⟩ :=
  ⟨rfl, rfl,
    (anonymous_comment_raises_typeError store1 1 ⟨"hi", true⟩ post1 rfl rfl).2⟩

/-- C4: a valid comment submission by a logged-in principal does not
persist a Comment row: the same call of the Bool property
`current_user.is_anonymous` raises TypeError before the insert, so the
response is 500 and the store is unchanged, contradicting the claim. -/
theorem logged_in_comment_raises_typeError (s : Store) (pid : Nat)
    (form : CommentForm) (q : BlogPost) (u : User)
    (hq : findPostById s pid = some q) (hv : form.valid = true) :
    show_post s (.user u) pid form = .error .typeError ∧
    serve s (.user u) (show_post s (.user u) pid form) =
      ⟨500, none, [], some u.id, s⟩ := by
  simp [show_post, hq, hv, callBool, serve, sessionOf]

/-- C4 witness: Bob submitting a valid comment on post 1 of the sample
store gets the 500, and no comment row appears. -/
theorem logged_in_comment_raises_typeError_witness :
    findPostById store1 1 = some post1 ∧
    ((⟨"hi", true⟩ : CommentForm).valid = true) ∧
    serve store1 (.user bob) (show_post store1 (.user bob) 1 ⟨"hi", true⟩) =
      ⟨500, none, [], some bob.id, store1⟩ :=
  ⟨rfl, rfl,
    (logged_in_comment_raises_typeError store1 1 ⟨"hi", true⟩ post1 bob rfl rfl).2⟩

end Blog

namespace Blog

/-- C5: a valid registration whose email already belongs to a registered
user creates no second user row (the store is unchanged) and answers with
the flash plus a redirect to login; and a valid registration with a fresh
email is never rejected as a duplicate — the duplicate check runs over the
existing rows only, before the candidate is saved — so exactly the one new
user row is created and the response redirects to the post list. -/
theorem register_duplicate_rejected_fresh_created (s : Store) (p : Principal)
    (form : RegisterForm) (hv : form.valid = true) :
    ((∃ u ∈ s.users, u.email = form.email) →
      register s p form =
        .ok ⟨.redirect "login", [("The email is already registered.", "email")],
          sessionOf p, s⟩) ∧
    ((∀ u ∈ s.users, u.email ≠ form.email) →
      register s p form =
        .ok ⟨.redirect "get_all_posts", [], some (nextUserId s),
          ⟨s.users ++ [⟨nextUserId s, form.name, form.email, hash form.password⟩],
            s.posts, s.comments⟩⟩) := by
  constructor
  · intro h
    have hc : (((get_users s).map fun u => u.email).contains form.email) = true :=
      (get_users_email_contains s form.email).mpr h
    simp only [register, registerGen, hv, hc]
    simp
  · intro h
    have hc := not_contains_of_fresh s form.email h
    simp only [register, registerGen, hv, hc]
    simp [db_add_user, login_user, is_active]

/-- C5 witness: registering with the already-registered email of Alice is
rejected with the flash plus redirect and an unchanged store; registering
with a fresh email creates exactly the new row with id 3. -/
theorem register_duplicate_rejected_fresh_created_witness :
    ((⟨"X", "a@x", "q", true⟩ : RegisterForm).valid = true) ∧
    register store1 .anonymous ⟨"X", "a@x", "q", true⟩ =
      .ok ⟨.redirect "login", [("The email is already registered.", "email")],
        none, store1⟩ ∧
    register store1 .anonymous ⟨"X", "c@x", "q", true⟩ =
      .ok ⟨.redirect "get_all_posts", [], some 3,
        ⟨[alice, bob, ⟨3, "X", "c@x", hash "q"⟩], store1.posts, []⟩⟩ :=
  ⟨rfl,
    (register_duplicate_rejected_fresh_created store1 .anonymous
      ⟨"X", "a@x", "q", true⟩ rfl).1 ⟨alice, by decide, rfl⟩,
    (register_duplicate_rejected_fresh_created store1 .anonymous
      ⟨"X", "c@x", "q", true⟩ rfl).2 (by decide)⟩

/-- The digest tag is prepended injectively. -/
theorem hash_inj (a b : String) (h : hash a = hash b) : a = b := by
  have h2 := congrArg String.data h
  simp [hash, String.data_append] at h2
  exact String.ext h2

/-- Verification against a stored digest succeeds exactly on the original
secret. -/
theorem check_hash_iff (pw c : String) :
    check_password_hash (hash pw) c = true ↔ pw = c := by
  unfold check_password_hash
  simp only [beq_iff_eq]
  exact ⟨hash_inj pw c, fun h => by rw [h]⟩

/-- C6: for a registered (email, password) pair, a valid login submission
with the correct password establishes the session on that user id and
redirects to the post list; with an incorrect password it leaves the
session as it was and flashes the invalid-password message; with an email
matching no user it leaves the session as it was and flashes the
email-does-not-exist message. -/
theorem login_three_cases (s : Store) (p : Principal) (form : LoginForm)
    (hv : form.valid = true) :
    (∀ u pw, get_user_email s form.email = some u → u.password = hash pw →
      (form.password = pw →
        login s p form = .ok ⟨.redirect "get_all_posts", [], some u.id, s⟩) ∧
      (form.password ≠ pw →
        login s p form =
          .ok ⟨.render "login.jinja",
            [("Password invalid. Try again.", "warning")], sessionOf p, s⟩)) ∧
    (get_user_email s form.email = none →
      login s p form =
        .ok ⟨.render "login.jinja",
          [("Email does not exist. Try again.", "warning")], sessionOf p, s⟩) := by
  constructor
  · intro u pw hu hpw
    constructor
    · intro hc
      have hch : check_password_hash u.password form.password = true := by
        rw [hpw]
        exact (check_hash_iff pw form.password).mpr hc.symm
      simp [login, hv, hu, hch, login_user, is_active]
    · intro hc
      have hch : check_password_hash u.password form.password = false := by
        rw [hpw]
        cases hcc : check_password_hash (hash pw) form.password with
        | true => exact absurd ((check_hash_iff pw form.password).mp hcc).symm hc
        | false => rfl
      simp [login, hv, hu, hch]
  · intro hu
    simp [login, hv, hu]

/-- C6 witness: against the sample store, Alice logging in with the right
password gets the session on id 1 and the redirect; with a wrong password
the invalid-password flash; with an unknown email the
email-does-not-exist flash. -/
theorem login_three_cases_witness :
    ((⟨"a@x", "pw1", true⟩ : LoginForm).valid = true) ∧
    login store1 .anonymous ⟨"a@x", "pw1", true⟩ =
      .ok ⟨.redirect "get_all_posts", [], some 1, store1⟩ ∧
    login store1 .anonymous ⟨"a@x", "bad", true⟩ =
      .ok ⟨.render "login.jinja", [("Password invalid. Try again.", "warning")],
        none, store1⟩ ∧
    login store1 .anonymous ⟨"zz", "pw1", true⟩ =
      .ok ⟨.render "login.jinja", [("Email does not exist. Try again.", "warning")],
        none, store1⟩ :=
  ⟨rfl,
    ((login_three_cases store1 .anonymous ⟨"a@x", "pw1", true⟩ rfl).1
      alice "pw1" rfl rfl).1 rfl,
    ((login_three_cases store1 .anonymous ⟨"a@x", "bad", true⟩ rfl).1
      alice "pw1" rfl rfl).2 (by decide),
    (login_three_cases store1 .anonymous ⟨"zz", "pw1", true⟩ rfl).2 rfl⟩

end Blog

namespace Blog

/-- C7: an admin-created post round-trips — when no existing row carries
the submitted title (so the unique-title commit succeeds and the post is
in fact created), creation redirects to the post list and fetching the new
post by its id returns a row whose title, subtitle, body and image URL
equal the submitted fields, whose author is the creating principal, and
whose date is the server-side creation-day stamp (the form has no date
field); when the submitted title duplicates an existing row the commit
raises IntegrityError, the response is 500 and no post is created. -/
theorem add_new_post_roundtrip (today : String) (s : Store) (u : User)
    (form : CreatePostForm) (hu : u.id = 1) (hv : form.valid = true) :
    ((∀ r ∈ s.posts, r.title ≠ form.title) →
      add_new_post today s (.user u) form =
        .ok ⟨.redirect "get_all_posts", [], some u.id,
          ⟨s.users, s.posts ++ [⟨nextPostId s, form.title, form.subtitle, today,
            form.body, form.img_url, u.id⟩], s.comments⟩⟩ ∧
      findPostById
        ⟨s.users, s.posts ++ [⟨nextPostId s, form.title, form.subtitle, today,
          form.body, form.img_url, u.id⟩], s.comments⟩ (nextPostId s) =
        some ⟨nextPostId s, form.title, form.subtitle, today, form.body,
          form.img_url, u.id⟩) ∧
    ((∃ r ∈ s.posts, r.title = form.title) →
      serve s (.user u) (add_new_post today s (.user u) form) =
        ⟨500, none, [], some u.id, s⟩) := by
  constructor
  · intro hfresh
    have hanyf : s.posts.any (fun r => r.title == form.title) = false := by
      apply List.any_eq_false.mpr
      intro r hr
      simp [hfresh r hr]
    constructor
    · simp [add_new_post, admin_only, principal_id, hu, hv, db_add_post, hanyf,
        sessionOf]
    · have hnone : s.posts.find? (fun r => r.id == nextPostId s) = none := by
        apply List.find?_eq_none.mpr
        intro r hr
        have hlt := post_id_lt_nextPostId s r hr
        simp only [beq_iff_eq]
        omega
      unfold findPostById
      rw [find_skip_left _ _ _ hnone]
      simp
  · intro hdup
    obtain ⟨r, hr, he⟩ := hdup
    have hanyt : s.posts.any (fun r => r.title == form.title) = true :=
      List.any_eq_true.mpr ⟨r, hr, by simp [he]⟩
    simp [serve, add_new_post, admin_only, principal_id, hu, hv, db_add_post,
      hanyt, sessionOf]

/-- C7 witness: Alice creating a post with a fresh title over the sample
store yields post id 2 carrying the submitted fields, author 1 and the
stamp, and fetching id 2 returns it. -/
theorem add_new_post_roundtrip_witness :
    alice.id = 1 ∧
    ((⟨"t", "s", "b", "i", true⟩ : CreatePostForm).valid = true) ∧
    (∀ r ∈ store1.posts, r.title ≠ "t") ∧
    add_new_post "d" store1 (.user alice) ⟨"t", "s", "b", "i", true⟩ =
      .ok ⟨.redirect "get_all_posts", [], some alice.id,
        ⟨store1.users, store1.posts ++ [⟨2, "t", "s", "d", "b", "i", alice.id⟩],
          store1.comments⟩⟩ ∧
    findPostById
      ⟨store1.users, store1.posts ++ [⟨2, "t", "s", "d", "b", "i", alice.id⟩],
        store1.comments⟩ 2 =
      some ⟨2, "t", "s", "d", "b", "i", alice.id⟩ :=
  ⟨rfl, rfl, by decide,
    ((add_new_post_roundtrip "d" store1 alice ⟨"t", "s", "b", "i", true⟩
      rfl rfl).1 (by decide)).1,
    ((add_new_post_roundtrip "d" store1 alice ⟨"t", "s", "b", "i", true⟩
      rfl rfl).1 (by decide)).2⟩

/-- C8: when no comment references an existing post (so the delete commit
succeeds and the post is in fact deleted), the admin deleting it responds
with a 302 redirect to the post list, afterwards fetching that post by id
finds nothing, and any subsequent request for it through the show-post
handler is answered with HTTP 404; when some comment references the post,
the ORM nullify-on-delete violates the NOT NULL `post_id` column, the
commit raises IntegrityError, the response is 500 and the post is kept. -/
theorem delete_post_then_fetch_404 (s : Store) (u : User) (pid : Nat)
    (q : BlogPost) (hu : u.id = 1) (hq : findPostById s pid = some q) :
    ((∀ c ∈ s.comments, c.post_id ≠ q.id) →
      serve s (.user u) (delete_post s (.user u) pid) =
        ⟨302, some (.redirect "get_all_posts"), [], some u.id,
          removePost s q.id⟩ ∧
      findPostById (removePost s q.id) pid = none ∧
      ∀ (p2 : Principal) (form : CommentForm),
        serve (removePost s q.id) p2
          (show_post (removePost s q.id) p2 pid form) =
          ⟨404, none, [], sessionOf p2, removePost s q.id⟩) ∧
    ((∃ c ∈ s.comments, c.post_id = q.id) →
      serve s (.user u) (delete_post s (.user u) pid) =
        ⟨500, none, [], some u.id, s⟩) := by
  have hq2 : s.posts.find? (fun r => r.id == pid) = some q := hq
  have hqid : q.id = pid := by
    have := List.find?_some hq2
    simpa using this
  constructor
  · intro hnc
    have hanyf : s.comments.any (fun c => c.post_id == q.id) = false := by
      apply List.any_eq_false.mpr
      intro c hc
      simp [hnc c hc]
    have hnone : findPostById (removePost s q.id) pid = none := by
      unfold findPostById removePost
      apply List.find?_eq_none.mpr
      intro r hr
      have hmem := List.mem_filter.mp hr
      have hne : (r.id != q.id) = true := hmem.2
      simp only [bne_iff_ne, ne_eq] at hne
      simp only [beq_iff_eq]
      omega
    refine ⟨?_, hnone, ?_⟩
    · simp [delete_post, admin_only, principal_id, hu, hq, deletePostRow,
        hanyf, serve, statusOf, sessionOf]
    · intro p2 form
      simp [show_post, hnone, serve]
  · intro hdup
    obtain ⟨c, hc, he⟩ := hdup
    have hanyt : s.comments.any (fun c => c.post_id == q.id) = true :=
      List.any_eq_true.mpr ⟨c, hc, by simp [he]⟩
    simp [delete_post, admin_only, principal_id, hu, hq, deletePostRow,
      hanyt, serve, sessionOf]

/-- C8 witness: Alice deleting the comment-free post 1 of the sample store
gets the 302 redirect; fetching post 1 afterwards finds nothing, and an
anonymous GET of the show-post route for id 1 is answered 404. -/
theorem delete_post_then_fetch_404_witness :
    alice.id = 1 ∧
    findPostById store1 1 = some post1 ∧
    (∀ c ∈ store1.comments, c.post_id ≠ post1.id) ∧
    serve store1 (.user alice) (delete_post store1 (.user alice) 1) =
      ⟨302, some (.redirect "get_all_posts"), [], some alice.id,
        removePost store1 post1.id⟩ ∧
    serve (removePost store1 post1.id) .anonymous
      (show_post (removePost store1 post1.id) .anonymous 1 ⟨"", false⟩) =
      ⟨404, none, [], none, removePost store1 post1.id⟩ :=
  ⟨rfl, rfl, by decide,
    ((delete_post_then_fetch_404 store1 alice 1 post1 rfl rfl).1 (by decide)).1,
    ((delete_post_then_fetch_404 store1 alice 1 post1 rfl rfl).1
      (by decide)).2.2 .anonymous ⟨"", false⟩⟩

/-- C9 counterexample: with no valid session, a GET of the logout route is
not answered with a redirect to the login page — `login_required` with no
configured login view aborts with 401. -/
theorem logout_anonymous_not_login_redirect :
    (serve store1 .anonymous (logout store1 .anonymous)).status = 401 ∧
    (serve store1 .anonymous (logout store1 .anonymous)).response ≠
      some (Response.redirect "login") := by
  decide

/-- C9 amended: with a valid session, logout clears the session and
responds with the 302 redirect to the post list; with no valid session the
response is 401 Unauthorized (flask_login aborts because no login view is
configured), not a redirect to the login page. -/
theorem logout_clears_session_else_401 (s : Store) (u : User) :
    logout s (.user u) = .ok ⟨.redirect "get_all_posts", [], none, s⟩ ∧
    serve s .anonymous (logout s .anonymous) = ⟨401, none, [], none, s⟩ :=
  ⟨rfl, rfl⟩

/-- C10: on a valid registration with a fresh email the user row is
committed by `db_add` before `login_user` runs, so whatever the outcome of
session establishment — quantified here over the login outcome function —
the new user row is in the resulting store. -/
theorem register_commits_user_before_session (login_ok : User → Bool)
    (s : Store) (p : Principal) (form : RegisterForm)
    (hv : form.valid = true) (hf : ∀ u ∈ s.users, u.email ≠ form.email) :
    ∃ r : PageOk, registerGen login_ok s p form = .ok r ∧
      r.store.users =
        s.users ++ [⟨nextUserId s, form.name, form.email, hash form.password⟩] := by
  have hc := not_contains_of_fresh s form.email hf
  simp only [registerGen, hv, hc, db_add_user]
  cases hlo : login_ok ⟨nextUserId s, form.name, form.email, hash form.password⟩ with
  | true => exact ⟨_, rfl, rfl⟩
  | false => exact ⟨_, rfl, rfl⟩

/-- C10 witness: a fresh registration over the sample store with a login
outcome function that always fails still leaves the new user row (id 3) in
the store. -/
theorem register_commits_user_before_session_witness :
    ((⟨"X", "c@x", "q", true⟩ : RegisterForm).valid = true) ∧
    (∀ u ∈ store1.users, u.email ≠ "c@x") ∧
    ∃ r : PageOk,
      registerGen (fun _ => false) store1 .anonymous ⟨"X", "c@x", "q", true⟩ =
        .ok r ∧
      r.store.users = store1.users ++ [⟨3, "X", "c@x", hash "q"⟩] :=
  ⟨rfl, by decide,
    register_commits_user_before_session (fun _ => false) store1 .anonymous
      ⟨"X", "c@x", "q", true⟩ rfl (by decide)⟩

end Blog
